import Mathlib

/-!
Verification development for the PromptMentor help-seeking detector.

The program under study has two core parts:

* `detector` (src/unnamed/part_000): two fixed lists of case-insensitive
  regular-expression rules (`EXECUTIVE_PATTERNS`, `ADAPTIVE_PATTERNS`) and a
  pure function `analyzePrompt` that folds both lists over the input text,
  collecting matched patterns and suggestions.

* `content` (src/src/content/content.ts): a change gate
  (`checkForExecutiveHelpSeeking`) guarded by a 500 ms lodash debounce; it
  extracts the latest user message text, dedups against
  `state.lastAnalyzedPrompt`, drops trimmed text shorter than 15 characters,
  classifies, and shows an advisory overlay for executive results when no
  overlay is currently visible.

The regexes use only: `\b` word boundaries, `\s+`, case-insensitive literal
words, alternation, and optional groups `( ... )?`.  We embed exactly those
constructs as a small regex AST `RE` with an end-position semantics
`matchEnds`, and `reTest` mirroring JavaScript `RegExp.test` (an unanchored
existence check; none of the source regexes carry the `g` flag, so `test` is
stateless in the source as well).
-/

/-- Apostrophe character, used inside pattern literals and test strings. -/
def apos : String := (Char.ofNat 39).toString

/-- JavaScript `\w` word characters: ASCII letters, digits, underscore. -/
def isWordChar (c : Char) : Bool :=
  c.isAlpha || c.isDigit || c == Char.ofNat 95

/-- JavaScript `\s` whitespace, restricted to its ASCII members
(space, tab, line feed, vertical tab, form feed, carriage return). -/
def isSpaceChar (c : Char) : Bool :=
  c == ' ' || c == Char.ofNat 9 || c == Char.ofNat 10 ||
  c == Char.ofNat 11 || c == Char.ofNat 12 || c == Char.ofNat 13

/-- Regex AST covering exactly the constructs used by the source patterns. -/
inductive RE where
  /-- a case-insensitive literal string -/
  | lit (w : String)
  /-- one or more whitespace characters -/
  | ws
  /-- a zero-width word boundary -/
  | wb
  /-- an optional group -/
  | opt (r : RE)
  /-- alternation -/
  | alt (r1 r2 : RE)
  /-- concatenation -/
  | seq (r1 r2 : RE)
deriving DecidableEq, Repr

/-- Concatenation of a head regex with a list of following regexes. -/
def rcat : RE → List RE → RE
  | r, [] => r
  | r, r2 :: rest => RE.seq r (rcat r2 rest)

/-- Alternation of a head regex with a list of further alternatives. -/
def ralt : RE → List RE → RE
  | r, [] => r
  | r, r2 :: rest => RE.alt r (ralt r2 rest)

/-- Alternation of literal words, as in `(write|give|generate|...)`. -/
def words (w : String) (rest : List String) : RE :=
  ralt (RE.lit w) (rest.map RE.lit)

/-- Does the literal `w` match case-insensitively at the head of `cs`? -/
def litAt : List Char → List Char → Bool
  | [], _ => true
  | _ :: _, [] => false
  | p :: ps, c :: cs => (c.toLower == p.toLower) && litAt ps cs

/-- Is the character at index `i` (if any) a word character? -/
def wordAt (cs : List Char) (i : Nat) : Bool :=
  match cs.get? i with
  | some c => isWordChar c
  | none => false

/-- JavaScript `\b`: position `i` lies between a word and a non-word
character (positions before index 0 and past the end count as non-word). -/
def isBoundary (cs : List Char) (i : Nat) : Bool :=
  (if i == 0 then false else wordAt cs (i - 1)) != wordAt cs i

/-- Length of the run of whitespace characters at the head of the list. -/
def spaceRun : List Char → Nat
  | [] => 0
  | c :: rest => if isSpaceChar c then spaceRun rest + 1 else 0

/-- End positions of a `\s+` match starting at `i`. -/
def wsEnds (cs : List Char) (i : Nat) : List Nat :=
  (List.range (spaceRun (cs.drop i))).map (fun k => i + k + 1)

/-- All positions at which a match of `r` starting at `i` can end. -/
def matchEnds : RE → List Char → Nat → List Nat
  | RE.lit w, cs, i => if litAt w.data (cs.drop i) then [i + w.length] else []
  | RE.ws, cs, i => wsEnds cs i
  | RE.wb, cs, i => if isBoundary cs i then [i] else []
  | RE.opt r, cs, i => i :: matchEnds r cs i
  | RE.alt r1 r2, cs, i => matchEnds r1 cs i ++ matchEnds r2 cs i
  | RE.seq r1 r2, cs, i => (matchEnds r1 cs i).flatMap (fun j => matchEnds r2 cs j)

/-- JavaScript `RegExp.test`: the regex matches somewhere in the string. -/
def reTest (r : RE) (s : String) : Bool :=
  (List.range (s.data.length + 1)).any (fun i => !(matchEnds r s.data i).isEmpty)

/-- The eight rule categories of `PatternType` (src/src/types/index.ts). -/
inductive PatternType where
  | solution_request
  | implementation_request
  | answer_request
  | assignment_paste
  | hint_request
  | shows_attempt
  | conceptual_question
  | verification_request
deriving DecidableEq, Repr

/-- A classification rule (`PatternConfig` in src/src/types/index.ts);
`suggestion` is optional and absent for all adaptive rules. -/
structure PatternConfig where
  pattern : RE
  type : PatternType
  message : String
  suggestion : Option String
deriving DecidableEq, Repr

/-- A matched rule as reported in the result (`DetectedPattern`). -/
structure DetectedPattern where
  type : PatternType
  message : String
deriving DecidableEq, Repr

/-- The classifier output (`AnalysisResult` in src/src/types/index.ts). -/
structure AnalysisResult where
  isExecutive : Bool
  isAdaptive : Bool
  executivePatterns : List DetectedPattern
  adaptivePatterns : List DetectedPattern
  suggestions : List String
deriving DecidableEq, Repr

/-- The executive rule list, transcribed regex by regex from
src/unnamed/part_000 lines 34-73.  Each `pattern` field is the AST of the
original regex, written with the same alternatives in the same order. -/
def EXECUTIVE_PATTERNS : List PatternConfig := [
  { -- \b(write|give|generate|create|make|provide)\s+(me\s+)?(the\s+)?(code|function|program|solution|script|implementation|answer)  (flag i)
    pattern := rcat RE.wb [
      words "write" ["give", "generate", "create", "make", "provide"],
      RE.ws,
      RE.opt (RE.seq (RE.lit "me") RE.ws),
      RE.opt (RE.seq (RE.lit "the") RE.ws),
      words "code" ["function", "program", "solution", "script", "implementation", "answer"]],
    type := PatternType.solution_request,
    message := "Asking for complete code reduces your learning opportunity.",
    suggestion := some "What are the key steps or concepts I should consider for this problem?" },
  { -- \b(solve|fix|debug|complete|finish)\s+(this|the|it|my)\b  (flag i)
    pattern := rcat RE.wb [
      words "solve" ["fix", "debug", "complete", "finish"],
      RE.ws,
      words "this" ["the", "it", "my"],
      RE.wb],
    type := PatternType.solution_request,
    message := "Asking to solve directly skips important problem-solving practice.",
    suggestion := some "Can you give me a hint about where to start or what might be wrong?" },
  { -- \bhow\s+(do\s+I|to|can\s+I|should\s+I)\s+(code|implement|write|create|build|make)\b  (flag i)
    pattern := rcat RE.wb [
      RE.lit "how",
      RE.ws,
      ralt (rcat (RE.lit "do") [RE.ws, RE.lit "i"])
        [RE.lit "to",
         rcat (RE.lit "can") [RE.ws, RE.lit "i"],
         rcat (RE.lit "should") [RE.ws, RE.lit "i"]],
      RE.ws,
      words "code" ["implement", "write", "create", "build", "make"],
      RE.wb],
    type := PatternType.implementation_request,
    message := "This might give you step-by-step instructions without building understanding.",
    suggestion := some "What concepts or algorithms are typically used for this type of problem?" },
  { -- \bwhat('s|\s+is)\s+(the\s+)?(code|solution|answer|output|result)\b  (flag i)
    pattern := rcat RE.wb [
      RE.lit "what",
      RE.alt (RE.lit (apos ++ "s")) (RE.seq RE.ws (RE.lit "is")),
      RE.ws,
      RE.opt (RE.seq (RE.lit "the") RE.ws),
      words "code" ["solution", "answer", "output", "result"],
      RE.wb],
    type := PatternType.answer_request,
    message := "Asking for the answer directly limits your learning.",
    suggestion := some ("Can you check if my approach is on the right track? Here" ++ apos ++ "s what I" ++ apos ++ "ve tried: [your attempt]") },
  { -- \b(implement|create|write|design|develop)\s+a\s+(class|function|method|program|algorithm)\s+(that|which|to)\b  (flag i)
    pattern := rcat RE.wb [
      words "implement" ["create", "write", "design", "develop"],
      RE.ws,
      RE.lit "a",
      RE.ws,
      words "class" ["function", "method", "program", "algorithm"],
      RE.ws,
      words "that" ["which", "to"],
      RE.wb],
    type := PatternType.assignment_paste,
    message := "This looks like a pasted assignment. Try rephrasing in your own words first.",
    suggestion := some ("I" ++ apos ++ "m working on [describe problem in your words]. I think I need to [your initial idea]. Is this a good starting point?") }
]

/-- The adaptive rule list, transcribed from src/unnamed/part_000
lines 80-104.  No adaptive rule carries a suggestion. -/
def ADAPTIVE_PATTERNS : List PatternConfig := [
  { -- \b(hint|clue|guide|direction|pointer|nudge)\b  (flag i)
    pattern := rcat RE.wb [
      words "hint" ["clue", "guide", "direction", "pointer", "nudge"],
      RE.wb],
    type := PatternType.hint_request,
    message := "Great! Asking for hints is an effective learning strategy.",
    suggestion := none },
  { -- \b(my\s+(approach|solution|code|attempt|understanding|idea)|I\s+(tried|think|wrote|attempted|believe|started))\b  (flag i)
    pattern := rcat RE.wb [
      RE.alt
        (rcat (RE.lit "my") [RE.ws,
          words "approach" ["solution", "code", "attempt", "understanding", "idea"]])
        (rcat (RE.lit "i") [RE.ws,
          words "tried" ["think", "wrote", "attempted", "believe", "started"]]),
      RE.wb],
    type := PatternType.shows_attempt,
    message := "Excellent! Showing your attempt helps you get targeted feedback.",
    suggestion := none },
  { -- \b(concept|understand|explain\s+why|learn|review|theory|principle)\b  (flag i)
    pattern := rcat RE.wb [
      ralt (RE.lit "concept")
        [RE.lit "understand",
         rcat (RE.lit "explain") [RE.ws, RE.lit "why"],
         RE.lit "learn", RE.lit "review", RE.lit "theory", RE.lit "principle"],
      RE.wb],
    type := PatternType.conceptual_question,
    message := "Good thinking! Understanding concepts helps with future problems too.",
    suggestion := none },
  { -- \b(is\s+(this|my)|am\s+I|does\s+this|check\s+(my|if))\s+(correct|right|wrong|good|bad|on\s+track|valid)  (flag i)
    pattern := rcat RE.wb [
      ralt (rcat (RE.lit "is") [RE.ws, words "this" ["my"]])
        [rcat (RE.lit "am") [RE.ws, RE.lit "i"],
         rcat (RE.lit "does") [RE.ws, RE.lit "this"],
         rcat (RE.lit "check") [RE.ws, words "my" ["if"]]],
      RE.ws,
      ralt (RE.lit "correct")
        [RE.lit "right", RE.lit "wrong", RE.lit "good", RE.lit "bad",
         rcat (RE.lit "on") [RE.ws, RE.lit "track"],
         RE.lit "valid"]],
    type := PatternType.verification_request,
    message := "Nice! Checking your understanding is a valuable metacognitive skill.",
    suggestion := none }
]

/-- One iteration of the executive loop of `analyzePrompt`
(src/unnamed/part_000 lines 128-140). -/
def execStep (promptText : String) (r : AnalysisResult) (config : PatternConfig) : AnalysisResult :=
  if reTest config.pattern promptText then
    { r with
      isExecutive := true,
      executivePatterns := r.executivePatterns ++ [{ type := config.type, message := config.message }],
      suggestions := r.suggestions ++ config.suggestion.toList }
  else r

/-- One iteration of the adaptive loop of `analyzePrompt`
(src/unnamed/part_000 lines 143-151). -/
def adaptStep (promptText : String) (r : AnalysisResult) (config : PatternConfig) : AnalysisResult :=
  if reTest config.pattern promptText then
    { r with
      isAdaptive := true,
      adaptivePatterns := r.adaptivePatterns ++ [{ type := config.type, message := config.message }] }
  else r

/-- `analyzePrompt` (src/unnamed/part_000 lines 117-154): start from the
all-false, all-empty result, run the executive loop, then the adaptive loop. -/
def analyzePrompt (promptText : String) : AnalysisResult :=
  let r1 := EXECUTIVE_PATTERNS.foldl (execStep promptText)
    { isExecutive := false, isAdaptive := false,
      executivePatterns := [], adaptivePatterns := [], suggestions := [] }
  ADAPTIVE_PATTERNS.foldl (adaptStep promptText) r1

/-!
Section: change gate and advisory trigger (src/src/content/content.ts).

`checkForExecutiveHelpSeeking` reads the DOM; we model its input as an
`Option String`: `none` when either early return fires (no user message
found, or no message-content element inside the last one — both paths
return without touching anything), `some raw` for the extracted
`textContent` before trimming.  The overlay DOM element and
`state.overlayVisible` move together in the source (`createOverlayPanel`
sets the flag when appending the element, `removeOverlayPanel` clears it
when removing), so a single boolean models both.  The emitted "show
advisory" event carries the first warning message and first suggestion
(with the source defaults) plus the prompt text.  `String.length` counts
characters where JavaScript counts UTF-16 units; they agree on all text
considered here.
-/

/-- JavaScript `String.prototype.trim` as used on the extracted
`textContent` (content.ts line 299): drop whitespace from both ends.
Modelled over the character list so that it computes by the kernel. -/
def jsTrim (s : String) : String :=
  ⟨(((s.data.dropWhile isSpaceChar).reverse).dropWhile isSpaceChar).reverse⟩

/-- `AppState` (src/src/types/index.ts); `processedMessages` is declared
and initialised in content.ts but never read or written afterwards. -/
structure AppState where
  lastAnalyzedPrompt : String
  overlayVisible : Bool
  processedMessages : List String
deriving DecidableEq, Repr

/-- The initial `state` object of content.ts (lines 89-93). -/
def initialState : AppState :=
  { lastAnalyzedPrompt := "", overlayVisible := false, processedMessages := [] }

/-- The payload handed to the presentation layer when an advisory overlay
is created (content.ts lines 119-158). -/
structure ShowAdvisory where
  warningMessage : String
  suggestedPrompt : String
  sourceText : String
deriving DecidableEq, Repr

/-- `DEBOUNCE_DELAY_MS` (content.ts line 76). -/
def DEBOUNCE_DELAY_MS : Nat := 500

/-- `removeOverlayPanel` (content.ts lines 265-271): if an overlay element
exists it is removed and the flag cleared; otherwise nothing happens. -/
def removeOverlayPanel (s : AppState) : AppState :=
  if s.overlayVisible then { s with overlayVisible := false } else s

/-- `createOverlayPanel` (content.ts lines 110-171): remove any existing
overlay, pick the first suggestion / first executive message with the
source defaults, append the overlay and set `overlayVisible`. -/
def createOverlayPanel (analysis : AnalysisResult) (originalPrompt : String)
    (s : AppState) : AppState × ShowAdvisory :=
  let s0 := removeOverlayPanel s
  let suggestion := analysis.suggestions.head?.getD
    "Can you give me a hint about how to approach this problem?"
  let warningMessage := (analysis.executivePatterns.head?.map DetectedPattern.message).getD
    "This prompt might give you the answer without helping you learn."
  ({ s0 with overlayVisible := true },
   { warningMessage := warningMessage, suggestedPrompt := suggestion,
     sourceText := originalPrompt })

/-- Outcome of one extraction attempt: the state afterwards, the text
passed to `analyzePrompt` (if any), and the advisory shown (if any). -/
structure GateResult where
  state : AppState
  classified : Option String
  shown : Option ShowAdvisory
deriving DecidableEq, Repr

/-- `checkForExecutiveHelpSeeking` (content.ts lines 282-328): abort when
no text was extracted, when the trimmed text equals
`state.lastAnalyzedPrompt` (dedup), or when it is shorter than 15
characters; otherwise record it, classify, and create the overlay exactly
when the result is executive and no overlay is visible. -/
def checkForExecutiveHelpSeeking (extraction : Option String) (s : AppState) : GateResult :=
  match extraction with
  | none => { state := s, classified := none, shown := none }
  | some raw =>
    let promptText := jsTrim raw
    if promptText = s.lastAnalyzedPrompt then
      { state := s, classified := none, shown := none }
    else if promptText.length < 15 then
      { state := s, classified := none, shown := none }
    else
      let s1 := { s with lastAnalyzedPrompt := promptText }
      let analysis := analyzePrompt promptText
      if analysis.isExecutive && !s1.overlayVisible then
        let p := createOverlayPanel analysis promptText s1
        { state := p.1, classified := some promptText, shown := some p.2 }
      else
        { state := s1, classified := some promptText, shown := none }

/-- Modelled from the spec: the quiescence timer of the change gate is the
external lodash `debounce` (content.ts line 345), whose implementation is
not part of this repository.  Spec section 4.2: "maintain a pending timer;
each call to `onChange()` (re)starts/refreshes a fixed quiescence window
...; only when no further `onChange()` arrives within the window does the
gate fire a single `extractAndClassify()` attempt" — trailing-edge only.
`debounceFires delay pending calls` walks the strictly increasing call
times: a call arriving before the pending fire time re-arms the timer,
otherwise the pending fire happens and the call re-arms; it returns the
list of fire times. -/
def debounceFires (delay : Nat) : Option Nat → List Nat → List Nat
  | none, [] => []
  | some p, [] => [p]
  | none, c :: rest => debounceFires delay (some (c + delay)) rest
  | some p, c :: rest =>
    if c < p then debounceFires delay (some (c + delay)) rest
    else p :: debounceFires delay (some (c + delay)) rest

/-!
Section: characterizations of the two loops of `analyzePrompt`.
-/

theorem foldl_execStep_isExecutive (t : String) (l : List PatternConfig) (r : AnalysisResult) :
    (l.foldl (execStep t) r).isExecutive
      = (r.isExecutive || l.any (fun c => reTest c.pattern t)) := by
  induction l generalizing r with
  | nil => simp
  | cons c rest ih =>
    by_cases h : reTest c.pattern t = true <;>
      simp [execStep, h, ih, Bool.or_assoc]

theorem foldl_execStep_isAdaptive (t : String) (l : List PatternConfig) (r : AnalysisResult) :
    (l.foldl (execStep t) r).isAdaptive = r.isAdaptive := by
  induction l generalizing r with
  | nil => rfl
  | cons c rest ih =>
    by_cases h : reTest c.pattern t = true <;> simp [execStep, h, ih]

theorem foldl_execStep_adaptivePatterns (t : String) (l : List PatternConfig) (r : AnalysisResult) :
    (l.foldl (execStep t) r).adaptivePatterns = r.adaptivePatterns := by
  induction l generalizing r with
  | nil => rfl
  | cons c rest ih =>
    by_cases h : reTest c.pattern t = true <;> simp [execStep, h, ih]

theorem foldl_execStep_executivePatterns (t : String) (l : List PatternConfig) (r : AnalysisResult) :
    (l.foldl (execStep t) r).executivePatterns
      = r.executivePatterns
        ++ (l.filter (fun c => reTest c.pattern t)).map
            (fun c => { type := c.type, message := c.message : DetectedPattern }) := by
  induction l generalizing r with
  | nil => simp
  | cons c rest ih =>
    by_cases h : reTest c.pattern t = true <;>
      simp [execStep, h, ih, List.filter_cons]

theorem foldl_execStep_suggestions (t : String) (l : List PatternConfig) (r : AnalysisResult) :
    (l.foldl (execStep t) r).suggestions
      = r.suggestions
        ++ (l.filter (fun c => reTest c.pattern t)).flatMap
            (fun c => c.suggestion.toList) := by
  induction l generalizing r with
  | nil => simp
  | cons c rest ih =>
    by_cases h : reTest c.pattern t = true <;>
      simp [execStep, h, ih, List.filter_cons]

theorem foldl_adaptStep_isExecutive (t : String) (l : List PatternConfig) (r : AnalysisResult) :
    (l.foldl (adaptStep t) r).isExecutive = r.isExecutive := by
  induction l generalizing r with
  | nil => rfl
  | cons c rest ih =>
    by_cases h : reTest c.pattern t = true <;> simp [adaptStep, h, ih]

theorem foldl_adaptStep_executivePatterns (t : String) (l : List PatternConfig) (r : AnalysisResult) :
    (l.foldl (adaptStep t) r).executivePatterns = r.executivePatterns := by
  induction l generalizing r with
  | nil => rfl
  | cons c rest ih =>
    by_cases h : reTest c.pattern t = true <;> simp [adaptStep, h, ih]

theorem foldl_adaptStep_suggestions (t : String) (l : List PatternConfig) (r : AnalysisResult) :
    (l.foldl (adaptStep t) r).suggestions = r.suggestions := by
  induction l generalizing r with
  | nil => rfl
  | cons c rest ih =>
    by_cases h : reTest c.pattern t = true <;> simp [adaptStep, h, ih]

theorem foldl_adaptStep_isAdaptive (t : String) (l : List PatternConfig) (r : AnalysisResult) :
    (l.foldl (adaptStep t) r).isAdaptive
      = (r.isAdaptive || l.any (fun c => reTest c.pattern t)) := by
  induction l generalizing r with
  | nil => simp
  | cons c rest ih =>
    by_cases h : reTest c.pattern t = true <;>
      simp [adaptStep, h, ih, Bool.or_assoc]

theorem foldl_adaptStep_adaptivePatterns (t : String) (l : List PatternConfig) (r : AnalysisResult) :
    (l.foldl (adaptStep t) r).adaptivePatterns
      = r.adaptivePatterns
        ++ (l.filter (fun c => reTest c.pattern t)).map
            (fun c => { type := c.type, message := c.message : DetectedPattern }) := by
  induction l generalizing r with
  | nil => simp
  | cons c rest ih =>
    by_cases h : reTest c.pattern t = true <;>
      simp [adaptStep, h, ih, List.filter_cons]

theorem analyzePrompt_isExecutive (t : String) :
    (analyzePrompt t).isExecutive
      = EXECUTIVE_PATTERNS.any (fun c => reTest c.pattern t) := by
  simp [analyzePrompt, foldl_adaptStep_isExecutive, foldl_execStep_isExecutive]

theorem analyzePrompt_isAdaptive (t : String) :
    (analyzePrompt t).isAdaptive
      = ADAPTIVE_PATTERNS.any (fun c => reTest c.pattern t) := by
  simp [analyzePrompt, foldl_adaptStep_isAdaptive, foldl_execStep_isAdaptive]

theorem analyzePrompt_executivePatterns (t : String) :
    (analyzePrompt t).executivePatterns
      = (EXECUTIVE_PATTERNS.filter (fun c => reTest c.pattern t)).map
          (fun c => { type := c.type, message := c.message : DetectedPattern }) := by
  simp [analyzePrompt, foldl_adaptStep_executivePatterns, foldl_execStep_executivePatterns]

theorem analyzePrompt_suggestions (t : String) :
    (analyzePrompt t).suggestions
      = (EXECUTIVE_PATTERNS.filter (fun c => reTest c.pattern t)).flatMap
          (fun c => c.suggestion.toList) := by
  simp [analyzePrompt, foldl_adaptStep_suggestions, foldl_execStep_suggestions]

theorem analyzePrompt_adaptivePatterns (t : String) :
    (analyzePrompt t).adaptivePatterns
      = (ADAPTIVE_PATTERNS.filter (fun c => reTest c.pattern t)).map
          (fun c => { type := c.type, message := c.message : DetectedPattern }) := by
  simp [analyzePrompt, foldl_execStep_adaptivePatterns, foldl_adaptStep_adaptivePatterns]

theorem flatMap_suggestion_toList (l : List PatternConfig) :
    l.flatMap (fun c => c.suggestion.toList)
      = l.filterMap (fun c => c.suggestion) := by
  induction l with
  | nil => rfl
  | cons c rest ih => cases h : c.suggestion <;> simp [h, ih]

theorem length_filterMap_suggestion (l : List PatternConfig)
    (h : ∀ c ∈ l, c.suggestion.isSome = true) :
    (l.filterMap (fun c => c.suggestion)).length = l.length := by
  induction l with
  | nil => rfl
  | cons c rest ih =>
    have hc := h c (by simp)
    cases hs : c.suggestion with
    | none => rw [hs] at hc; simp at hc
    | some v => simp [hs, ih (fun d hd => h d (by simp [hd]))]

/-!
Section: characterizations of the change gate.
-/

theorem check_abort_of_dedup (raw : String) (s : AppState)
    (h : (jsTrim raw) = s.lastAnalyzedPrompt) :
    checkForExecutiveHelpSeeking (some raw) s
      = { state := s, classified := none, shown := none } := by
  simp only [checkForExecutiveHelpSeeking]
  rw [if_pos h]

theorem check_abort_of_short (raw : String) (s : AppState)
    (h : (jsTrim raw).length < 15) :
    checkForExecutiveHelpSeeking (some raw) s
      = { state := s, classified := none, shown := none } := by
  simp only [checkForExecutiveHelpSeeking]
  by_cases hd : (jsTrim raw) = s.lastAnalyzedPrompt
  · rw [if_pos hd]
  · rw [if_neg hd, if_pos h]

theorem check_run (raw : String) (s : AppState)
    (hne : (jsTrim raw) ≠ s.lastAnalyzedPrompt) (hlen : ¬ (jsTrim raw).length < 15) :
    (checkForExecutiveHelpSeeking (some raw) s).classified = some (jsTrim raw) ∧
    (checkForExecutiveHelpSeeking (some raw) s).state.lastAnalyzedPrompt = (jsTrim raw) ∧
    (checkForExecutiveHelpSeeking (some raw) s).state.processedMessages = s.processedMessages ∧
    (checkForExecutiveHelpSeeking (some raw) s).state.overlayVisible
      = (s.overlayVisible || (analyzePrompt (jsTrim raw)).isExecutive) ∧
    (checkForExecutiveHelpSeeking (some raw) s).shown.isSome
      = ((analyzePrompt (jsTrim raw)).isExecutive && !s.overlayVisible) := by
  simp only [checkForExecutiveHelpSeeking]
  rw [if_neg hne, if_neg hlen]
  cases hv : s.overlayVisible <;>
    cases hx : (analyzePrompt (jsTrim raw)).isExecutive <;>
      simp [hv, hx, createOverlayPanel, removeOverlayPanel]

theorem debounceFires_run (delay : Nat) (rest : List Nat) (c : Nat)
    (h : List.Chain' (fun a b => a < b ∧ b < a + delay) (c :: rest)) :
    debounceFires delay (some (c + delay)) rest = [rest.getLastD c + delay] := by
  induction rest generalizing c with
  | nil => rfl
  | cons d rest' ih =>
    rw [List.chain'_cons] at h
    rw [debounceFires, if_pos h.1.2, ih d h.2, List.getLastD_cons]

/-!
Section: the claims.
-/

/-- C1: the classifier is a pure function of the prompt text: for every
string, two calls of `analyzePrompt` on identical text yield structurally
identical `AnalysisResult`s (same flags, same pattern lists, same
suggestions).  The embedding is a mathematical function of the text alone,
mirroring the source: `analyzePrompt` reads only its argument and the two
fixed rule lists, and no source regex carries the `g` flag, so
`RegExp.test` holds no mutable `lastIndex` state either. -/
theorem c1_analyzePrompt_deterministic (t1 t2 : String) (h : t1 = t2) :
    analyzePrompt t1 = analyzePrompt t2 := by rw [h]

theorem c1_analyzePrompt_deterministic_witness :
    analyzePrompt "write the code" = analyzePrompt "write the code" :=
  c1_analyzePrompt_deterministic "write the code" "write the code" rfl

/-- C2: word-boundary property of the classifier: on the text
"let&apos;s rewrite code" no executive rule fires (`isExecutive = false`;
in particular the "write" alternative must not match inside "rewrite"),
while "write the code" sets `isExecutive = true`. -/
theorem c2_word_boundary :
    (analyzePrompt ("let" ++ apos ++ "s rewrite code")).isExecutive = false ∧
    (analyzePrompt "write the code").isExecutive = true :=
  ⟨by decide, by decide⟩

/-- C3: dual classification: any text matched by at least one executive
rule and at least one adaptive rule gets `isExecutive = true` and
`isAdaptive = true` simultaneously; the two rule lists are evaluated
independently, with no short-circuiting. -/
theorem c3_dual_classification (t : String)
    (h1 : ∃ c ∈ EXECUTIVE_PATTERNS, reTest c.pattern t = true)
    (h2 : ∃ c ∈ ADAPTIVE_PATTERNS, reTest c.pattern t = true) :
    (analyzePrompt t).isExecutive = true ∧ (analyzePrompt t).isAdaptive = true := by
  constructor
  · rw [analyzePrompt_isExecutive]
    simpa [List.any_eq_true] using h1
  · rw [analyzePrompt_isAdaptive]
    simpa [List.any_eq_true] using h2

theorem c3_dual_classification_witness :
    (analyzePrompt "I tried my own solution, now give me the code").isExecutive = true ∧
    (analyzePrompt "I tried my own solution, now give me the code").isAdaptive = true :=
  c3_dual_classification "I tried my own solution, now give me the code"
    (by decide) (by decide)

/-- C4: end-to-end classifier scenario for "Is my approach to this
correct?": `isAdaptive = true`, the adaptive matches contain a
`verification_request` and/or `shows_attempt` entry, `isExecutive = false`,
and no advisory overlay is shown for this result: from any state, running
the change gate on this extraction emits no show-advisory event and leaves
the overlay flag unchanged. -/
theorem c4_adaptive_scenario :
    (analyzePrompt "Is my approach to this correct?").isAdaptive = true ∧
    (∃ p ∈ (analyzePrompt "Is my approach to this correct?").adaptivePatterns,
        p.type = PatternType.verification_request ∨ p.type = PatternType.shows_attempt) ∧
    (analyzePrompt "Is my approach to this correct?").isExecutive = false ∧
    ∀ s : AppState,
      (checkForExecutiveHelpSeeking (some "Is my approach to this correct?") s).shown = none ∧
      (checkForExecutiveHelpSeeking (some "Is my approach to this correct?") s).state.overlayVisible
        = s.overlayVisible := by
  refine ⟨by decide, by decide, by decide, fun s => ?_⟩
  by_cases hd : (jsTrim "Is my approach to this correct?") = s.lastAnalyzedPrompt
  · rw [check_abort_of_dedup _ s hd]
    exact ⟨rfl, rfl⟩
  · have h := check_run "Is my approach to this correct?" s hd (by decide)
    have hx : (analyzePrompt (jsTrim "Is my approach to this correct?")).isExecutive
        = false := by decide
    refine ⟨?_, ?_⟩
    · have hs := h.2.2.2.2
      rw [hx] at hs
      simp only [Bool.false_and] at hs
      cases hq : (checkForExecutiveHelpSeeking (some "Is my approach to this correct?") s).shown with
      | none => rfl
      | some ev => rw [hq] at hs; simp at hs
    · rw [h.2.2.2.1, hx]
      simp

/-- C5: change-gate quiescence.  For every nonempty strictly increasing
sequence of change-notification times in which each notification arrives
less than `DEBOUNCE_DELAY_MS` after the previous one, the debounced gate
fires the extraction-and-classification routine exactly once, and only at
the moment the full window has elapsed after the last notification.
The debounce itself is modelled from the spec (see `debounceFires`). -/
theorem c5_quiescence (calls : List Nat) (h1 : calls ≠ [])
    (h2 : List.Chain' (fun a b => a < b ∧ b < a + DEBOUNCE_DELAY_MS) calls) :
    debounceFires DEBOUNCE_DELAY_MS none calls
      = [calls.getLastD 0 + DEBOUNCE_DELAY_MS] := by
  cases calls with
  | nil => exact absurd rfl h1
  | cons c rest =>
    rw [debounceFires, debounceFires_run DEBOUNCE_DELAY_MS rest c h2,
      List.getLastD_cons]

theorem c5_quiescence_witness :
    debounceFires DEBOUNCE_DELAY_MS none [0, 100, 300] = [800] := by
  have h2 : List.Chain' (fun a b => a < b ∧ b < a + DEBOUNCE_DELAY_MS) [0, 100, 300] := by
    simp [List.chain'_cons, List.chain'_singleton, DEBOUNCE_DELAY_MS]
  have h := c5_quiescence [0, 100, 300] (by decide) h2
  simpa using h

/-- C6: dedup property of the change gate.  When a stabilized extraction
passes the dedup and minimum-length guards, the classifier is invoked on it
and `lastAnalyzedPrompt` is set to the trimmed text; a second consecutive
extraction returning the identical text then aborts: no classification, no
event, and the whole state untouched. -/
theorem c6_dedup (raw : String) (s : AppState)
    (hne : jsTrim raw ≠ s.lastAnalyzedPrompt) (hlen : 15 ≤ (jsTrim raw).length) :
    (checkForExecutiveHelpSeeking (some raw) s).classified = some (jsTrim raw) ∧
    (checkForExecutiveHelpSeeking (some raw) s).state.lastAnalyzedPrompt = jsTrim raw ∧
    checkForExecutiveHelpSeeking (some raw) (checkForExecutiveHelpSeeking (some raw) s).state
      = { state := (checkForExecutiveHelpSeeking (some raw) s).state,
          classified := none, shown := none } := by
  have h := check_run raw s hne (by omega)
  exact ⟨h.1, h.2.1, check_abort_of_dedup raw _ h.2.1.symm⟩

theorem c6_dedup_witness :
    (checkForExecutiveHelpSeeking (some "Write me the solution for this task") initialState).classified
      = some (jsTrim "Write me the solution for this task") ∧
    (checkForExecutiveHelpSeeking (some "Write me the solution for this task") initialState).state.lastAnalyzedPrompt
      = jsTrim "Write me the solution for this task" ∧
    checkForExecutiveHelpSeeking (some "Write me the solution for this task")
        (checkForExecutiveHelpSeeking (some "Write me the solution for this task") initialState).state
      = { state := (checkForExecutiveHelpSeeking (some "Write me the solution for this task") initialState).state,
          classified := none, shown := none } :=
  c6_dedup "Write me the solution for this task" initialState (by decide) (by decide)

/-- C7: minimum-length gating.  Trimmed extracted text of length 14 or
less never reaches the classifier — the attempt aborts with the state
(including `lastAnalyzedPrompt`) unchanged and nothing classified — while
trimmed text of length 15 that passes the dedup check is classified. -/
theorem c7_min_length (raw : String) (s : AppState) :
    ((jsTrim raw).length ≤ 14 →
      checkForExecutiveHelpSeeking (some raw) s
        = { state := s, classified := none, shown := none }) ∧
    ((jsTrim raw).length = 15 → jsTrim raw ≠ s.lastAnalyzedPrompt →
      (checkForExecutiveHelpSeeking (some raw) s).classified = some (jsTrim raw)) := by
  constructor
  · intro hle
    by_cases hd : jsTrim raw = s.lastAnalyzedPrompt
    · exact check_abort_of_dedup raw s hd
    · exact check_abort_of_short raw s (by omega)
  · intro h15 hne
    exact (check_run raw s hne (by omega)).1

theorem c7_min_length_witness :
    checkForExecutiveHelpSeeking (some "write the code") initialState
      = { state := initialState, classified := none, shown := none } ∧
    (checkForExecutiveHelpSeeking (some "exactly15chars!") initialState).classified
      = some (jsTrim "exactly15chars!") :=
  ⟨(c7_min_length "write the code" initialState).1 (by decide),
   (c7_min_length "exactly15chars!" initialState).2 (by decide) (by decide)⟩

/-- C8: advisory mutual exclusion.  While an advisory is active
(`overlayVisible = true`), no extraction attempt — in particular a further
executive-classified one — emits a show-advisory event; after an explicit
dismiss (`removeOverlayPanel`) clears the flag, a subsequent
executive-classified extraction that passes the guards does emit one.
The overlay flag is a single boolean, so at most one advisory is ever
concurrently visible. -/
theorem c8_advisory_mutual_exclusion (ext : Option String) (raw : String) (s : AppState)
    (hvis : s.overlayVisible = true)
    (hne : jsTrim raw ≠ s.lastAnalyzedPrompt) (hlen : 15 ≤ (jsTrim raw).length)
    (hexec : (analyzePrompt (jsTrim raw)).isExecutive = true) :
    (checkForExecutiveHelpSeeking ext s).shown = none ∧
    (checkForExecutiveHelpSeeking (some raw) (removeOverlayPanel s)).shown.isSome = true := by
  constructor
  · cases ext with
    | none => rfl
    | some raw2 =>
      by_cases hd : jsTrim raw2 = s.lastAnalyzedPrompt
      · rw [check_abort_of_dedup raw2 s hd]
      · by_cases hl : (jsTrim raw2).length < 15
        · rw [check_abort_of_short raw2 s hl]
        · have h := (check_run raw2 s hd hl).2.2.2.2
          rw [hvis] at h
          simp only [Bool.not_true, Bool.and_false] at h
          cases hq : (checkForExecutiveHelpSeeking (some raw2) s).shown with
          | none => rfl
          | some ev => rw [hq] at h; simp at h
  · have hrm : removeOverlayPanel s = { s with overlayVisible := false } := by
      rw [removeOverlayPanel, if_pos hvis]
    rw [hrm]
    have h := check_run raw { s with overlayVisible := false } hne (by omega)
    rw [h.2.2.2.2, hexec]
    rfl

theorem c8_advisory_mutual_exclusion_witness :
    (checkForExecutiveHelpSeeking (some "give me the code for this")
        { lastAnalyzedPrompt := "", overlayVisible := true, processedMessages := [] }).shown = none ∧
    (checkForExecutiveHelpSeeking (some "give me the code for this")
        (removeOverlayPanel
          { lastAnalyzedPrompt := "", overlayVisible := true, processedMessages := [] })).shown.isSome = true :=
  c8_advisory_mutual_exclusion (some "give me the code for this") "give me the code for this"
    { lastAnalyzedPrompt := "", overlayVisible := true, processedMessages := [] }
    rfl (by decide) (by decide) (by decide)

/-- C9: for every input text the suggestions list contains exactly the
suggestion of each matched executive rule, in declared rule order (adaptive
rules never contribute); its length equals the length of
`executivePatterns` (every executive rule defines a suggestion), and it is
non-empty whenever `isExecutive` is true. -/
theorem c9_suggestions_structure (t : String) :
    (analyzePrompt t).suggestions
      = (EXECUTIVE_PATTERNS.filter (fun c => reTest c.pattern t)).filterMap
          (fun c => c.suggestion) ∧
    (analyzePrompt t).suggestions.length = (analyzePrompt t).executivePatterns.length ∧
    ((analyzePrompt t).isExecutive = true → (analyzePrompt t).suggestions ≠ []) := by
  have hall : ∀ c ∈ EXECUTIVE_PATTERNS, c.suggestion.isSome = true := by decide
  have hallf : ∀ c ∈ EXECUTIVE_PATTERNS.filter (fun c => reTest c.pattern t),
      c.suggestion.isSome = true :=
    fun c hc => hall c (List.mem_of_mem_filter hc)
  have hs : (analyzePrompt t).suggestions
      = (EXECUTIVE_PATTERNS.filter (fun c => reTest c.pattern t)).filterMap
          (fun c => c.suggestion) := by
    rw [analyzePrompt_suggestions, flatMap_suggestion_toList]
  have hlen : (analyzePrompt t).suggestions.length
      = (analyzePrompt t).executivePatterns.length := by
    rw [hs, analyzePrompt_executivePatterns,
      length_filterMap_suggestion _ hallf, List.length_map]
  refine ⟨hs, hlen, fun hx => ?_⟩
  rw [analyzePrompt_isExecutive, List.any_eq_true] at hx
  obtain ⟨c, hc, hct⟩ := hx
  have hmem : c ∈ EXECUTIVE_PATTERNS.filter (fun c => reTest c.pattern t) :=
    List.mem_filter.mpr ⟨hc, hct⟩
  intro hnil
  have h0 : (analyzePrompt t).suggestions.length
      = (EXECUTIVE_PATTERNS.filter (fun c => reTest c.pattern t)).length := by
    rw [hs, length_filterMap_suggestion _ hallf]
  rw [hnil] at h0
  have hpos : 0 < (EXECUTIVE_PATTERNS.filter (fun c => reTest c.pattern t)).length :=
    List.length_pos.mpr (List.ne_nil_of_mem hmem)
  simp at h0
  omega

theorem c9_suggestions_structure_witness :
    (analyzePrompt "write the code").suggestions ≠ [] :=
  (c9_suggestions_structure "write the code").2.2 (by decide)

/-- C10: abort atomicity of the change gate.  Whenever an extraction
attempt aborts — nothing extracted (no user message, or no content element
in it), text identical to `lastAnalyzedPrompt`, or trimmed length below
15 — the entire application state (`lastAnalyzedPrompt`, `overlayVisible`,
`processedMessages`) is unchanged, nothing is classified and no overlay is
created or removed. -/
theorem c10_abort_atomicity (ext : Option String) (s : AppState)
    (h : ext = none ∨ ∃ raw, ext = some raw ∧
          (jsTrim raw = s.lastAnalyzedPrompt ∨ (jsTrim raw).length < 15)) :
    checkForExecutiveHelpSeeking ext s
      = { state := s, classified := none, shown := none } := by
  rcases h with h | ⟨raw, hext, hcase⟩
  · rw [h]; rfl
  · subst hext
    rcases hcase with hd | hl
    · exact check_abort_of_dedup raw s hd
    · exact check_abort_of_short raw s hl

theorem c10_abort_atomicity_witness :
    checkForExecutiveHelpSeeking none initialState
      = { state := initialState, classified := none, shown := none } :=
  c10_abort_atomicity none initialState (Or.inl rfl)
